import Mathlib

/-!
Shallow embedding of the `myq` Go client (github.com/joeshaw/myq), a client
for the MyQ garage-door cloud service.  The embedding covers the session /
request layer (`apiRequest`, `apiRequestWithRetry`, `Login`, `fillAccounts`,
`Devices`, `DeviceState`), the OAuth flow (`authorize`, `login`, `callback`,
`token` in oauth.go), the PKCE generator (`pkceChallenge`), the HTML
anti-forgery-token extractor (`verificationToken`), and the legacy
(v4 API) generation of the library (`stateString`, legacy `Devices`).

Network I/O is modelled by oracles: each HTTP exchange the code performs is
represented by a record of its observable outcome (transport error or not,
status code, whether the relevant JSON/HTML bodies decode, `Location`
header).  Go's single `error` interface is modelled by one inductive `Err`;
the sentinel `ErrNotLoggedIn` is the constructor `Err.notLoggedIn`, and the
pointer-equality test `err == ErrNotLoggedIn` is constructor equality.
-/

namespace Myq

/-- The errors the library can produce.  `notLoggedIn` is the sentinel
`ErrNotLoggedIn`; `errResp` is `*errorResponse` with its out-of-band
`StatusCode` field and the JSON `Message`/`Description` fields;
`jsonDecode` stands for a `json.Decoder.Decode` failure; `transport` for an
error returned by the HTTP client itself; `cookieJar`, `htmlParse`,
`noLocation`, `unexpectedStatus`, `tokenNotFound` for the failure modes of
the OAuth flow; `deviceNotFound` for the "device %s not found" error of the
directory layer. -/
inductive Err where
  | notLoggedIn
  | errResp (statusCode : Nat) (message description : String)
  | jsonDecode
  | transport (msg : String)
  | cookieJar
  | htmlParse
  | noLocation
  | unexpectedStatus (code : Nat)
  | tokenNotFound
  | deviceNotFound (serial : String)
  deriving DecidableEq, Repr

/-- Go `isStatus`: type-assert the error to `*errorResponse` and compare its
`StatusCode` to `code`. -/
def isStatus (e : Err) (code : Nat) : Bool :=
  match e with
  | .errResp c _ _ => c == code
  | _ => false

/-- The observable outcome of one HTTP exchange performed by
`Session.apiRequest`.  `transportError` is `some msg` when `client.Do`
itself fails; `status` is the response status code; `targetDecode` is
`some a` when the 200-path `json.Decode` into the caller-supplied target
succeeds and produces `a`, `none` when it fails; `errBody` is
`some (message, description)` when the default-path decode into
`errorResponse` succeeds, `none` when it fails. -/
structure HttpExchange (α : Type) where
  transportError : Option String
  status : Nat
  targetDecode : Option α
  errBody : Option (String × String)

/-- The headers `Session.apiRequest` attaches before sending: a JSON
content type when the request has a body, and `Authorization: Bearer <tok>`
exactly when the stored token is non-empty. -/
def requestHeaders (hasBody : Bool) (token : String) : List (String × String) :=
  (if hasBody then [("Content-Type", "application/json")] else []) ++
  (if token ≠ "" then [("Authorization", "Bearer " ++ token)] else [])

/-- Go `Session.apiRequest`, classification part: after the exchange `x`,
status 200 decodes the body into the target (a decode failure is returned
as the error), 204 and 202 succeed with no body, 401 returns the sentinel
`ErrNotLoggedIn`, and any other status builds an `*errorResponse` carrying
the status code, taking message/description from the JSON error body when
it decodes and otherwise synthesizing `received HTTP status code <n>`.
`.ok (some a)` is a 200 success with decoded payload `a`; `.ok none` is a
bodyless 202/204 success. -/
def apiRequest {α : Type} (x : HttpExchange α) : Except Err (Option α) :=
  match x.transportError with
  | some m => .error (.transport m)
  | none =>
    if x.status = 200 then
      match x.targetDecode with
      | some a => .ok (some a)
      | none => .error .jsonDecode
    else if x.status = 204 ∨ x.status = 202 then
      .ok none
    else if x.status = 401 then
      .error .notLoggedIn
    else
      match x.errBody with
      | some (m, d) => .error (.errResp x.status m d)
      | none =>
        .error (.errResp x.status ("received HTTP status code " ++ toString x.status) "")

/-- Trace of one `apiRequestWithRetry` call: how many times `apiRequest`
ran, how many times `Login` ran, and the value returned to the caller. -/
structure RetryTrace (α : Type) where
  requestCalls : Nat
  loginCalls : Nat
  result : Except Err (Option α)
  deriving Repr

/-- Go `Session.apiRequestWithRetry`.  `attempt n` is the outcome of the
`n`-th `apiRequest` call on this request (an oracle for the server's
behaviour), `login` the outcome of `s.Login()`.  The code compares the
first error to the sentinel `ErrNotLoggedIn`; only on that exact error does
it run `Login` once and, if that succeeds, re-run `apiRequest` once,
returning the second outcome unchanged; a `Login` failure is returned
without a second attempt; any other first outcome is returned as is. -/
def apiRequestWithRetry {α : Type} (attempt : Nat → Except Err (Option α))
    (login : Except Err Unit) : RetryTrace α :=
  match attempt 0 with
  | .error .notLoggedIn =>
    match login with
    | .error e => ⟨1, 1, .error e⟩
    | .ok _ => ⟨2, 1, attempt 1⟩
  | r => ⟨1, 0, r⟩

/-! ## HTML token extractor (oauth.go, `verificationToken`) -/

/-- Node types of `golang.org/x/net/html`; only `element` can match, the
others are traversed. -/
inductive NodeType where
  | document
  | element
  | text
  | comment
  | doctype
  deriving DecidableEq, Repr

/-- A parsed HTML node: its type, its `Data` (the tag name for elements),
its attribute list (key/value pairs, in document order) and its children
(in document order). -/
inductive HtmlNode where
  | mk (type : NodeType) (data : String) (attr : List (String × String))
      (children : List HtmlNode)

/-- The attribute scan inside `verificationToken`'s walk: iterate over the
attribute list, recording the value of each `name` and `value` key; a later
duplicate key overwrites an earlier one, as in the Go `for`/`switch`. -/
def scanAttrs (attrs : List (String × String)) : String × String :=
  attrs.foldl
    (fun (nv : String × String) a =>
      if a.1 = "name" then (a.2, nv.2)
      else if a.1 = "value" then (nv.1, a.2)
      else nv)
    ("", "")

/-- What the walk yields at one node, children aside: for an element node
named `input` whose scanned `name` attribute is `__RequestVerificationToken`
and whose scanned `value` attribute is non-empty, the value; otherwise the
empty string. -/
def nodeToken (type : NodeType) (data : String) (attrs : List (String × String)) : String :=
  if type = .element ∧ data = "input" then
    let nv := scanAttrs attrs
    if nv.1 = "__RequestVerificationToken" ∧ nv.2 ≠ "" then nv.2 else ""
  else ""

mutual

/-- The `walk` closure of `verificationToken`: check the node itself, then the children
in order, returning the first non-empty result; empty string when nothing
matches (a pre-order depth-first search). -/
def verificationToken : HtmlNode → String
  | .mk type data attrs children =>
    let v := nodeToken type data attrs
    if v ≠ "" then v else verificationTokenList children

/-- The child loop of `walk`: first non-empty result among the children. -/
def verificationTokenList : List HtmlNode → String
  | [] => ""
  | c :: cs =>
    let v := verificationToken c
    if v ≠ "" then v else verificationTokenList cs

end

mutual

/-- Specification companion for the extractor: all qualifying token values
in the document, in pre-order. -/
def allTokens : HtmlNode → List String
  | .mk type data attrs children =>
    let v := nodeToken type data attrs
    (if v ≠ "" then [v] else []) ++ allTokensList children

/-- Mapping `allTokens` over a list of sibling nodes, left to right. -/
def allTokensList : List HtmlNode → List String
  | [] => []
  | c :: cs => allTokens c ++ allTokensList cs

end

/-! ## OAuth flow (oauth.go) and `Session.Login` (myq.go) -/

/-- URLs are threaded opaquely between the steps (the claims never inspect
their query strings). -/
abbrev URL := String

/-- The four HTTP interactions of the OAuth flow, in program order. -/
inductive Step where
  | authorize
  | submitCreds
  | callback
  | tokenExchange
  deriving DecidableEq, Repr

/-- Observable outcomes of the four HTTP exchanges of one OAuth flow
attempt, plus whether `cookiejar.New` succeeded.  For each step:
`…T = some m` means the HTTP client itself failed; `…Status` is the
response status.  `authorizeParse` is the result of `html.Parse`
(`none` = parse error); `authorizeFinalURL` is `resp.Request.URL` after
redirects.  `loginLocation`/`callbackLocation` are the `Location` headers
(`none` = absent, `resp.Location()` fails).  `tokenBody` is the decode of
the token JSON: `none` = decode error, `some a` = decodes with
`access_token` field `a` (Go's zero value makes an absent or empty field
the empty string). -/
structure FlowWorld where
  jarOk : Bool
  authorizeT : Option String
  authorizeStatus : Nat
  authorizeParse : Option HtmlNode
  authorizeFinalURL : URL
  loginT : Option String
  loginStatus : Nat
  loginLocation : Option URL
  callbackT : Option String
  callbackStatus : Nat
  callbackLocation : Option URL
  tokenT : Option String
  tokenStatus : Nat
  tokenBody : Option String

/-- Go `oauth.authorize`: GET the authorization endpoint; any status other
than 200 is fatal; parse the HTML body; extract the verification token;
an empty extraction is fatal; return the token and the final URL. -/
def stepAuthorize (w : FlowWorld) : Except Err (String × URL) :=
  match w.authorizeT with
  | some m => .error (.transport m)
  | none =>
    if w.authorizeStatus ≠ 200 then .error (.unexpectedStatus w.authorizeStatus)
    else
      match w.authorizeParse with
      | none => .error .htmlParse
      | some doc =>
        let tok := verificationToken doc
        if tok = "" then .error .tokenNotFound
        else .ok (tok, w.authorizeFinalURL)

/-- Go `oauth.login`: POST the credentials form with redirects disabled; any
status other than 302 is fatal; return the `Location` header
(`resp.Location()` fails when it is absent). -/
def stepLogin (w : FlowWorld) : Except Err URL :=
  match w.loginT with
  | some m => .error (.transport m)
  | none =>
    if w.loginStatus ≠ 302 then .error (.unexpectedStatus w.loginStatus)
    else
      match w.loginLocation with
      | none => .error .noLocation
      | some u => .ok u

/-- Go `oauth.callback`: GET the redirect target with redirects disabled; any
status other than 302 is fatal; return the `Location` header. -/
def stepCallback (w : FlowWorld) : Except Err URL :=
  match w.callbackT with
  | some m => .error (.transport m)
  | none =>
    if w.callbackStatus ≠ 302 then .error (.unexpectedStatus w.callbackStatus)
    else
      match w.callbackLocation with
      | none => .error .noLocation
      | some u => .ok u

/-- Go `oauth.token`: POST the code/verifier form; any status other than 200
is fatal; decode the JSON body (a decode failure is fatal); return the
`access_token` field. -/
def stepToken (w : FlowWorld) : Except Err String :=
  match w.tokenT with
  | some m => .error (.transport m)
  | none =>
    if w.tokenStatus ≠ 200 then .error (.unexpectedStatus w.tokenStatus)
    else
      match w.tokenBody with
      | none => .error .jsonDecode
      | some accessToken => .ok accessToken

/-- The body of `Session.Login`: `newOAuth` (which fails only if the
cookie jar cannot be built), then the four steps strictly in order, each
attempted only after the previous one succeeded, aborting at the first
failure.  Returns the list of steps that were issued and either the bearer
token or the first error. -/
def loginFlow (w : FlowWorld) : List Step × Except Err String :=
  if ¬ w.jarOk then ([], .error .cookieJar)
  else
    match stepAuthorize w with
    | .error e => ([.authorize], .error e)
    | .ok _ =>
      match stepLogin w with
      | .error e => ([.authorize, .submitCreds], .error e)
      | .ok _ =>
        match stepCallback w with
        | .error e => ([.authorize, .submitCreds, .callback], .error e)
        | .ok _ =>
          match stepToken w with
          | .error e => ([.authorize, .submitCreds, .callback, .tokenExchange], .error e)
          | .ok tok => ([.authorize, .submitCreds, .callback, .tokenExchange], .ok tok)

/-- A MyQ account (`id`, `name`). -/
structure Account where
  id : String
  name : String
  deriving DecidableEq, Repr

/-- The `Session` struct: credentials, the bearer token, and the cached
account list. -/
structure Session where
  username : String
  password : String
  token : String
  accounts : List Account
  deriving DecidableEq, Repr

/-- Go `Session.Login` as a state transformer: run the flow; on any failure
return the error with the session untouched; on success assign `s.token`
(the only field the method writes) and return nil.  Also yields the list of
flow steps that were issued. -/
def LoginRun (s : Session) (w : FlowWorld) : Session × List Step × Except Err Unit :=
  match loginFlow w with
  | (tr, .error e) => (s, tr, .error e)
  | (tr, .ok tok) => ({ s with token := tok }, tr, .ok ())

/-! ## Directory layer (myq.go: `fillAccounts`, `Devices`, `DeviceState`) -/

/-- Go `Session.fillAccounts`: when the cached account list is non-empty, do
nothing (no request is issued); otherwise issue the accounts request
(through the retry wrapper, whose outcome is the oracle `fetch`), and on
success store the decoded list.  Returns the updated session, whether the
request was issued, and the error if any. -/
def fillAccounts (s : Session) (fetch : Except Err (List Account)) :
    Session × Bool × Option Err :=
  if s.accounts.length > 0 then (s, false, none)
  else
    match fetch with
    | .error e => (s, true, some e)
    | .ok accts => ({ s with accounts := accts }, true, none)

/-- The account loop of `Session.DeviceState`: query each account in list
order (`lookup a` is the outcome of the retry-wrapped per-account request,
yielding the decoded `state.door_state` on success); a 404 `errorResponse`
(`isStatus err 404`) skips to the next account, any other error returns
immediately, a success returns the door state immediately, and an
exhausted list returns the `device not found` error.  The first component
counts how many accounts were queried. -/
def deviceStateLoop (lookup : Account → Except Err String) (serial : String) :
    List Account → Nat × Except Err String
  | [] => (0, .error (.deviceNotFound serial))
  | a :: rest =>
    match lookup a with
    | .ok st => (1, .ok st)
    | .error e =>
      if isStatus e 404 then
        let r := deviceStateLoop lookup serial rest
        (r.1 + 1, r.2)
      else (1, .error e)

/-- Go `Session.DeviceState`: fill the account cache, then run the account
loop.  Returns the updated session, whether the accounts request was
issued, the number of per-account lookups issued, and the result. -/
def DeviceStateRun (s : Session) (fetch : Except Err (List Account))
    (lookup : Account → Except Err String) (serial : String) :
    Session × Bool × Nat × Except Err String :=
  match fillAccounts s fetch with
  | (s', fetched, some e) => (s', fetched, 0, .error e)
  | (s', fetched, none) =>
    let r := deviceStateLoop lookup serial s'.accounts
    (s', fetched, r.1, r.2)

/-- One element of the `items` array of the devices listing response.
`doorState = none` models a JSON in which `state.door_state` is absent;
Go's decoder then leaves the field at its zero value `""`. -/
structure Item where
  serialNumber : String
  deviceType : String
  name : String
  doorState : Option String
  deriving DecidableEq, Repr

/-- The string Go's decode leaves in `body.Items[i].State.DoorState`: the
provider's value when present, the zero value `""` when absent. -/
def itemDoorState (it : Item) : String := it.doorState.getD ""

/-- The `Device` struct of the current-generation API. -/
structure Device where
  account : Account
  serialNumber : String
  type : String
  name : String
  doorState : String
  deriving DecidableEq, Repr

/-- The account loop of `Session.Devices`: for each account in order,
issue the per-account devices request (oracle `items`); abort with the
first error; on success append one `Device` per item, copying
`serial_number`, `device_type`, `name` and `state.door_state` verbatim. -/
def devicesLoop (items : Account → Except Err (List Item)) :
    List Account → Except Err (List Device)
  | [] => .ok []
  | a :: rest =>
    match items a with
    | .error e => .error e
    | .ok its =>
      match devicesLoop items rest with
      | .error e => .error e
      | .ok ds =>
        .ok (its.map (fun it =>
          { account := a, serialNumber := it.serialNumber, type := it.deviceType,
            name := it.name, doorState := itemDoorState it }) ++ ds)

/-- Go `Session.Devices`: fill the account cache, then run the account
loop. -/
def DevicesRun (s : Session) (fetch : Except Err (List Account))
    (items : Account → Except Err (List Item)) :
    Session × Except Err (List Device) :=
  match fillAccounts s fetch with
  | (s', _, some e) => (s', .error e)
  | (s', _, none) => (s', devicesLoop items s'.accounts)

/-! ## Door-state constants and the legacy (v4 API) generation -/

def StateUnknown : String := "unknown"
def StateOpen : String := "open"
def StateClosed : String := "closed"
def StateStopped : String := "stopped"
def StateOpening : String := "opening"
def StateClosing : String := "closing"

/-- Legacy `stateString`: translate the provider's numeric `doorstate`
code into the door-state enumeration, every unrecognized code included
under `unknown`. -/
def stateString (st : Int) : String :=
  if st = 1 ∨ st = 9 then StateOpen
  else if st = 2 then StateClosed
  else if st = 3 then StateStopped
  else if st = 4 then StateOpening
  else if st = 5 then StateClosing
  else StateUnknown

/-- Go `strconv.Atoi` with its error ignored, as the legacy code calls it:
an optionally `+`/`-`-signed decimal number parses to its value, anything
else yields the zero value 0.  (Out-of-64-bit-range literals, which the
provider never sends for a door state, are not modelled.) -/
def atoi (s : String) : Int :=
  if s.startsWith "-" then
    match (s.drop 1).toNat? with
    | some n => -(n : Int)
    | none => 0
  else if s.startsWith "+" then
    match (s.drop 1).toNat? with
    | some n => (n : Int)
    | none => 0
  else
    match s.toNat? with
    | some n => (n : Int)
    | none => 0

/-- One attribute of a legacy device record. -/
structure LegacyAttr where
  attributeDisplayName : String
  value : String
  deriving DecidableEq, Repr

/-- A legacy device record, the fields the conversion reads. -/
structure LegacyDevice where
  myqDeviceId : Int
  serialNumber : String
  myqDeviceTypeName : String
  attributes : List LegacyAttr
  deriving DecidableEq, Repr

/-- The `Device` struct of the legacy API. -/
structure LegacyOutDevice where
  deviceID : String
  serialNumber : String
  type : String
  name : String
  desc : String
  state : String
  deriving DecidableEq, Repr

/-- The `switch attr.AttributeDisplayName` body of the legacy `Devices`
loop: a `name` attribute sets `Name`, a `desc` attribute sets `Desc`, a
`doorstate` attribute sets `State` to `stateString` of the parsed value,
anything else changes nothing. -/
def legacyAttrStep (dev : LegacyOutDevice) (attr : LegacyAttr) : LegacyOutDevice :=
  if attr.attributeDisplayName = "name" then { dev with name := attr.value }
  else if attr.attributeDisplayName = "desc" then { dev with desc := attr.value }
  else if attr.attributeDisplayName = "doorstate" then
    { dev with state := stateString (atoi attr.value) }
  else dev

/-- The per-device body of the legacy `Devices` loop: start from a record
whose `State` is `StateUnknown`, then walk the attribute list with
`legacyAttrStep`. -/
def legacyConvert (d : LegacyDevice) : LegacyOutDevice :=
  d.attributes.foldl legacyAttrStep
    { deviceID := toString d.myqDeviceId, serialNumber := d.serialNumber,
      type := d.myqDeviceTypeName, name := "", desc := "", state := StateUnknown }

/-- Legacy `Session.DeviceState`, decode part: the returned state is
`stateString` of the parsed `AttributeValue`. -/
def legacyDeviceState (attributeValue : String) : String :=
  stateString (atoi attributeValue)

/-! ## PKCE generator (oauth.go `pkceChallenge`)

`pkceChallenge` draws 32 bytes from `crypto/rand`, base64url-encodes them
without padding into the verifier, and base64url-encodes the SHA-256
digest of the verifier's bytes into the challenge.  The random source is
made explicit as the `randomBytes` argument (bytes, i.e. naturals below
256); the `panic` on a failing random source is the one non-returning
path and has no counterpart among returning executions.  The encoder
(`encoding/base64`, RFC 4648 §5 alphabet, no padding) and the hash
(`crypto/sha256`, FIPS 180-4) are spelled out so the definitions are
executable. -/

/-- The base64url alphabet, RFC 4648 §5. -/
def b64urlAlphabet : List Char :=
  "ABCDEFGHIJKLMNOPQRSTUVWXYZabcdefghijklmnopqrstuvwxyz0123456789-_".toList

/-- Character for one 6-bit group. -/
def b64Char (n : Nat) : Char := b64urlAlphabet.getD n 'A'

/-- Unpadded base64url encoding
(`base64.URLEncoding.WithPadding(base64.NoPadding)`): each 3-byte group
becomes 4 characters, a trailing 2-byte group 3 characters, a trailing
single byte 2 characters. -/
def base64urlNoPad : List Nat → List Char
  | b1 :: b2 :: b3 :: rest =>
    b64Char (b1 / 4) ::
    b64Char (b1 % 4 * 16 + b2 / 16) ::
    b64Char (b2 % 16 * 4 + b3 / 64) ::
    b64Char (b3 % 64) :: base64urlNoPad rest
  | [b1, b2] => [b64Char (b1 / 4), b64Char (b1 % 4 * 16 + b2 / 16), b64Char (b2 % 16 * 4)]
  | [b1] => [b64Char (b1 / 4), b64Char (b1 % 4 * 16)]
  | [] => []

/-- Truncation to a 32-bit word. -/
def w32 (n : Nat) : Nat := n % 4294967296

/-- 32-bit right rotation of a word. -/
def rotr (x n : Nat) : Nat := w32 (x / 2 ^ n + x % 2 ^ n * 2 ^ (32 - n))

/-- Big-endian bytes of a value, fixed width. -/
def beBytes (numBytes value : Nat) : List Nat :=
  (List.range numBytes).map (fun i => value / 2 ^ (8 * (numBytes - 1 - i)) % 256)

/-- FIPS 180-4 padding: append `0x80`, zero bytes up to 56 mod 64, then
the bit length as 8 big-endian bytes. -/
def sha256Pad (msg : List Nat) : List Nat :=
  msg ++ [128] ++ List.replicate ((55 - msg.length % 64 + 64) % 64) 0 ++
    beBytes 8 (msg.length * 8)

/-- Big-endian 32-bit words of a byte sequence. -/
def wordsOf : List Nat → List Nat
  | b1 :: b2 :: b3 :: b4 :: rest =>
    (((b1 * 256 + b2) * 256 + b3) * 256 + b4) :: wordsOf rest
  | _ => []

/-- Message-schedule extension: append `n` further words to `ws` by the
σ0/σ1 recurrence. -/
def sha256Extend (ws : List Nat) : Nat → List Nat
  | 0 => ws
  | n + 1 =>
    let i := ws.length
    let w15 := ws.getD (i - 15) 0
    let w2 := ws.getD (i - 2) 0
    let w16 := ws.getD (i - 16) 0
    let w7 := ws.getD (i - 7) 0
    let s0 := rotr w15 7 ^^^ rotr w15 18 ^^^ w15 / 2 ^ 3
    let s1 := rotr w2 17 ^^^ rotr w2 19 ^^^ w2 / 2 ^ 10
    sha256Extend (ws ++ [w32 (w16 + s0 + w7 + s1)]) n

/-- The 64 SHA-256 round constants. -/
def sha256K : List Nat :=
  [1116352408, 1899447441, 3049323471, 3921009573, 961987163, 1508970993,
   2453635748, 2870763221, 3624381080, 310598401, 607225278, 1426881987,
   1925078388, 2162078206, 2614888103, 3248222580, 3835390401, 4022224774,
   264347078, 604807628, 770255983, 1249150122, 1555081692, 1996064986,
   2554220882, 2821834349, 2952996808, 3210313671, 3336571891, 3584528711,
   113926993, 338241895, 666307205, 773529912, 1294757372, 1396182291,
   1695183700, 1986661051, 2177026350, 2456956037, 2730485921, 2820302411,
   3259730800, 3345764771, 3516065817, 3600352804, 4094571909, 275423344,
   430227734, 506948616, 659060556, 883997877, 958139571, 1322822218,
   1537002063, 1747873779, 1955562222, 2024104815, 2227730452, 2361852424,
   2428436474, 2756734187, 3204031479, 3329325298]

/-- The SHA-256 initial hash value. -/
def sha256H : List Nat :=
  [1779033703, 3144134277, 1013904242, 2773480762, 1359893119,
   2600822924, 528734635, 1541459225]

/-- One compression round on the working state `[a,b,c,d,e,f,g,h]`;
`kw` is the (wrapped) sum of round constant and schedule word. -/
def sha256Round (st : List Nat) (kw : Nat) : List Nat :=
  match st with
  | [a, b, c, d, e, f, g, h] =>
    let S1 := rotr e 6 ^^^ rotr e 11 ^^^ rotr e 25
    let ch := (e &&& f) ^^^ ((4294967295 - e) &&& g)
    let t1 := w32 (h + S1 + ch + kw)
    let S0 := rotr a 2 ^^^ rotr a 13 ^^^ rotr a 22
    let maj := (a &&& b) ^^^ (a &&& c) ^^^ (b &&& c)
    let t2 := w32 (S0 + maj)
    [w32 (t1 + t2), a, b, c, w32 (d + t1), e, f, g]
  | _ => st

/-- Compress one 64-byte chunk into the running hash value. -/
def sha256Chunk (h : List Nat) (chunk : List Nat) : List Nat :=
  let ws := sha256Extend (wordsOf chunk) 48
  let st := (sha256K.zip ws).foldl (fun st kw => sha256Round st (w32 (kw.1 + kw.2))) h
  (h.zip st).map (fun p => w32 (p.1 + p.2))

/-- Split into 64-byte chunks (`fuel` bounds the recursion; every chunk
consumes at least one byte, so `l.length` is always enough fuel). -/
def chunks64Go : Nat → List Nat → List (List Nat)
  | _, [] => []
  | 0, _ :: _ => []
  | fuel + 1, b :: rest => ((b :: rest).take 64) :: chunks64Go fuel ((b :: rest).drop 64)

/-- Split into 64-byte chunks. -/
def chunks64 (l : List Nat) : List (List Nat) :=
  chunks64Go l.length l

/-- SHA-256 of a byte sequence, as 32 bytes. -/
def sha256 (msg : List Nat) : List Nat :=
  (((chunks64 (sha256Pad msg)).foldl sha256Chunk sha256H).map (beBytes 4)).flatten

/-- Go `pkceChallenge`, the randomness made explicit: the verifier is the
unpadded base64url encoding of the 32 random bytes, the challenge the
unpadded base64url encoding of the SHA-256 digest of the verifier's bytes
(the verifier is ASCII, so its UTF-8 bytes are its character codes).
Returned in the source's order `(challenge, verifier)`. -/
def pkceChallenge (randomBytes : List Nat) : String × String :=
  let verifier := String.mk (base64urlNoPad randomBytes)
  let challenge := String.mk (base64urlNoPad (sha256 (verifier.toList.map Char.toNat)))
  (challenge, verifier)

/-! ## Concrete sample data used to instantiate the theorems -/

/-- The six door-state strings the two API generations use. -/
def doorStates : List String :=
  [StateUnknown, StateOpen, StateClosed, StateStopped, StateOpening, StateClosing]

/-- A sample parsed login page: a document whose form holds one
anti-forgery input. -/
def sampleDoc : HtmlNode :=
  .mk .document "" []
    [.mk .element "html" []
      [.mk .element "form" []
        [.mk .element "input"
          [("type", "hidden"), ("name", "__RequestVerificationToken"), ("value", "tokval")]
          []]]]

/-- A sample parsed login page with two qualifying anti-forgery inputs. -/
def sampleDocTwo : HtmlNode :=
  .mk .document "" []
    [.mk .element "html" []
      [.mk .element "input"
        [("name", "__RequestVerificationToken"), ("value", "first")] [],
       .mk .element "input"
        [("name", "__RequestVerificationToken"), ("value", "second")] []]]

/-- A world in which every step of the OAuth flow succeeds and the token
exchange yields `tok123`. -/
def successWorld : FlowWorld :=
  { jarOk := true
    authorizeT := none, authorizeStatus := 200, authorizeParse := some sampleDoc
    authorizeFinalURL := "https://partner-identity.myq-cloud.com/Account/Login"
    loginT := none, loginStatus := 302, loginLocation := some "https://cb1"
    callbackT := none, callbackStatus := 302, callbackLocation := some "https://cb2"
    tokenT := none, tokenStatus := 200, tokenBody := some "tok123" }

/-- Like `successWorld`, but the token-exchange JSON decodes with no (or
an empty) `access_token` field, so the decoded field is Go's zero value. -/
def emptyTokenWorld : FlowWorld :=
  { successWorld with tokenBody := some "" }

/-- A session that has already logged in once and cached one account. -/
def sampleSession : Session :=
  { username := "u@example.com", password := "pw", token := "oldtok"
    accounts := [{ id := "a1", name := "Home" }] }

/-- A session with three cached accounts. -/
def threeAcctSession : Session :=
  { username := "u", password := "p", token := "t"
    accounts := [⟨"a1", "A"⟩, ⟨"a2", "B"⟩, ⟨"a3", "C"⟩] }

/-- A per-account lookup in which only account `a3` recognizes the
device; the others answer with a 404 error response. -/
def sampleLookup : Account → Except Err String :=
  fun a => if a.id = "a3" then .ok "open" else .error (.errResp 404 "Not Found" "")

/-! ## Theorems -/

/-- C1: through `apiRequestWithRetry`, a first failure with `NotLoggedIn`
makes the session run `Login` exactly once and re-run the request exactly
once, returning the second outcome unchanged (a second `NotLoggedIn`
included); a failing interposed `Login` is returned without a second
request attempt; any first outcome other than `NotLoggedIn` is returned
with no `Login` and no retry; in every case at most one `Login` and at
most two request attempts occur, so the wrapper never loops. -/
theorem c1_retry_semantics {α : Type} (attempt : Nat → Except Err (Option α))
    (login : Except Err Unit) :
    (attempt 0 = .error .notLoggedIn → login = .ok () →
      apiRequestWithRetry attempt login = ⟨2, 1, attempt 1⟩) ∧
    (∀ e, attempt 0 = .error .notLoggedIn → login = .error e →
      apiRequestWithRetry attempt login = ⟨1, 1, .error e⟩) ∧
    (attempt 0 ≠ .error .notLoggedIn →
      apiRequestWithRetry attempt login = ⟨1, 0, attempt 0⟩) ∧
    (apiRequestWithRetry attempt login).loginCalls ≤ 1 ∧
    (apiRequestWithRetry attempt login).requestCalls ≤ 2 := by
  refine ⟨?_, ?_, ?_, ?_, ?_⟩
  · intro h0 hl
    simp [apiRequestWithRetry, h0, hl]
  · intro e h0 hl
    simp [apiRequestWithRetry, h0, hl]
  · intro hne
    rcases h0 : attempt 0 with e | v
    · cases e <;> simp_all [apiRequestWithRetry, h0]
    · simp [apiRequestWithRetry, h0]
  · rcases h0 : attempt 0 with e | v
    · cases e <;> cases login <;> simp [apiRequestWithRetry, h0]
    · simp [apiRequestWithRetry, h0]
  · rcases h0 : attempt 0 with e | v
    · cases e <;> cases login <;> simp [apiRequestWithRetry, h0]
    · simp [apiRequestWithRetry, h0]

/-- Witness for C1 at a server that always answers 401 and a succeeding
re-login: one `Login`, two request attempts, and the second `NotLoggedIn`
propagated unchanged. -/
theorem c1_retry_semantics_witness :
    apiRequestWithRetry (fun _ => (.error .notLoggedIn : Except Err (Option Unit)))
        (.ok ()) = ⟨2, 1, .error .notLoggedIn⟩ :=
  (c1_retry_semantics (fun _ => (.error .notLoggedIn : Except Err (Option Unit)))
    (.ok ())).1 rfl rfl

/-- C4: with the exchange completing (no transport error), `apiRequest`
classifies by status: 200 decodes the body into the caller-supplied target
(a decode failure becoming the returned error), 202 and 204 succeed with
no body, 401 returns exactly `ErrNotLoggedIn`, and every other status
returns an `errorResponse` that carries that numeric status code, whose
message and description come from the structured JSON error body when it
decodes and are the synthesized `received HTTP status code <n>` message
otherwise. -/
theorem c4_classification {α : Type} (x : HttpExchange α)
    (hT : x.transportError = none) :
    (x.status = 200 →
      apiRequest x = match x.targetDecode with
        | some a => .ok (some a)
        | none => .error .jsonDecode) ∧
    (x.status = 202 ∨ x.status = 204 → apiRequest x = .ok none) ∧
    (x.status = 401 → apiRequest x = .error .notLoggedIn) ∧
    (x.status ≠ 200 → x.status ≠ 202 → x.status ≠ 204 → x.status ≠ 401 →
      ∃ m d, apiRequest x = .error (.errResp x.status m d) ∧
        (∀ m' d', x.errBody = some (m', d') → m = m' ∧ d = d') ∧
        (x.errBody = none →
          m = "received HTTP status code " ++ toString x.status ∧ d = "")) := by
  refine ⟨?_, ?_, ?_, ?_⟩
  · intro h
    rcases hd : x.targetDecode with _ | a <;> simp [apiRequest, hT, h, hd]
  · rintro (h | h) <;> simp [apiRequest, hT, h]
  · intro h
    simp [apiRequest, hT, h]
  · intro h200 h202 h204 h401
    rcases hb : x.errBody with _ | ⟨m, d⟩
    · refine ⟨"received HTTP status code " ++ toString x.status, "", ?_, ?_, ?_⟩
      · simp [apiRequest, hT, h200, h202, h204, h401, hb]
      · intro m' d' h
        exact Option.noConfusion h
      · intro _
        exact ⟨rfl, rfl⟩
    · refine ⟨m, d, ?_, ?_, ?_⟩
      · simp [apiRequest, hT, h200, h202, h204, h401, hb]
      · intro m' d' h
        simp only [Option.some.injEq, Prod.mk.injEq] at h
        exact h
      · intro h
        exact Option.noConfusion h

/-- Witness for C4 on a 500 response with a decodable error body. -/
theorem c4_classification_witness :
    ∃ m d, apiRequest
        ({ transportError := none, status := 500,
           targetDecode := none, errBody := some ("boom", "bad") } : HttpExchange Unit)
      = .error (.errResp 500 m d) ∧
      (∀ m' d',
        ({ transportError := none, status := 500, targetDecode := none,
           errBody := some ("boom", "bad") } : HttpExchange Unit).errBody = some (m', d') →
        m = m' ∧ d = d') ∧
      (({ transportError := none, status := 500, targetDecode := none,
          errBody := some ("boom", "bad") } : HttpExchange Unit).errBody = none →
        m = "received HTTP status code 500" ∧ d = "") :=
  (c4_classification
    ({ transportError := none, status := 500, targetDecode := none,
       errBody := some ("boom", "bad") } : HttpExchange Unit) rfl).2.2.2
    (by decide) (by decide) (by decide) (by decide)

mutual

theorem allTokens_mem_ne (n : HtmlNode) : ∀ x ∈ allTokens n, x ≠ "" := by
  cases n with
  | mk ty d attrs cs =>
    intro x hx
    simp only [allTokens] at hx
    rcases List.mem_append.mp hx with h | h
    · by_cases hv : nodeToken ty d attrs = ""
      · rw [if_neg (not_not_intro hv)] at h
        cases h
      · rw [if_pos hv, List.mem_singleton] at h
        exact h ▸ hv
    · exact allTokensList_mem_ne cs x h

theorem allTokensList_mem_ne (l : List HtmlNode) : ∀ x ∈ allTokensList l, x ≠ "" := by
  cases l with
  | nil =>
    intro x hx
    simp only [allTokensList] at hx
    cases hx
  | cons c cs =>
    intro x hx
    simp only [allTokensList] at hx
    rcases List.mem_append.mp hx with h | h
    · exact allTokens_mem_ne c x h
    · exact allTokensList_mem_ne cs x h

end

mutual

theorem verificationToken_eq_head (n : HtmlNode) :
    verificationToken n = (allTokens n).headD "" := by
  cases n with
  | mk ty d attrs cs =>
    simp only [verificationToken, allTokens]
    by_cases hv : nodeToken ty d attrs = ""
    · rw [if_neg (not_not_intro hv), if_neg (not_not_intro hv), List.nil_append]
      exact verificationTokenList_eq_head cs
    · rw [if_pos hv, if_pos hv, List.singleton_append, List.headD_cons]

theorem verificationTokenList_eq_head (l : List HtmlNode) :
    verificationTokenList l = (allTokensList l).headD "" := by
  cases l with
  | nil => rfl
  | cons c cs =>
    simp only [verificationTokenList, allTokensList]
    have hc := verificationToken_eq_head c
    by_cases hv : verificationToken c = ""
    · rw [if_neg (not_not_intro hv)]
      rcases h : allTokens c with _ | ⟨a, t⟩
      · rw [List.nil_append]
        exact verificationTokenList_eq_head cs
      · exfalso
        have ha : a ≠ "" := allTokens_mem_ne c a (h ▸ List.mem_cons_self a t)
        rw [h, List.headD_cons] at hc
        rw [hc] at hv
        exact ha hv
    · rcases h : allTokens c with _ | ⟨a, t⟩
      · rw [h] at hc
        exact absurd hc hv
      · rw [if_pos hv, List.cons_append, List.headD_cons]
        rw [h, List.headD_cons] at hc
        exact hc

end

/-- C8: the extractor is a pre-order depth-first search: it returns the
head (first element in document order) of the list of all qualifying
anti-forgery values — the `value` attributes of `input` elements whose
`name` attribute is `__RequestVerificationToken` and whose `value` is
non-empty — and the empty string when the document holds none. -/
theorem c8_extractor (doc : HtmlNode) :
    verificationToken doc = (allTokens doc).headD "" ∧
    (allTokens doc = [] → verificationToken doc = "") ∧
    (∀ v rest, allTokens doc = v :: rest → verificationToken doc = v) := by
  have h := verificationToken_eq_head doc
  refine ⟨h, ?_, ?_⟩
  · intro he
    rw [h, he]
    rfl
  · intro v rest he
    rw [h, he]
    rfl

/-- Witness for C8 on a page with two qualifying fields: the earlier one
in document order is returned. -/
theorem c8_extractor_witness :
    allTokens sampleDocTwo = ["first", "second"] ∧
    verificationToken sampleDocTwo = "first" :=
  ⟨rfl, (c8_extractor sampleDocTwo).2.2 "first" ["second"] rfl⟩

theorem base64urlNoPad_length :
    ∀ b : List Nat, (base64urlNoPad b).length = (b.length * 4 + 2) / 3
  | [] => by simp [base64urlNoPad]
  | [b1] => by simp [base64urlNoPad]
  | [b1, b2] => by simp [base64urlNoPad]
  | b1 :: b2 :: b3 :: rest => by
    have ih := base64urlNoPad_length rest
    simp only [base64urlNoPad, List.length_cons, ih]
    omega

/-- C2: `pkceChallenge`, its random source made explicit as the byte list
it returns: the verifier is the unpadded base64url encoding of those bytes
(for the 32 bytes the code draws, 43 characters), the challenge is the
unpadded base64url encoding of the SHA-256 digest of the verifier's ASCII
bytes, and the challenge is a function of the verifier alone (two runs
with the same verifier have the same challenge). -/
theorem c2_pkce (b : List Nat) :
    (pkceChallenge b).2 = String.mk (base64urlNoPad b) ∧
    (pkceChallenge b).1 =
      String.mk (base64urlNoPad (sha256 ((pkceChallenge b).2.toList.map Char.toNat))) ∧
    (∀ b', (pkceChallenge b').2 = (pkceChallenge b).2 →
      (pkceChallenge b').1 = (pkceChallenge b).1) ∧
    (b.length = 32 → (pkceChallenge b).2.length = 43) := by
  refine ⟨rfl, rfl, ?_, ?_⟩
  · intro b' h
    simp only [pkceChallenge] at h ⊢
    rw [h]
  · intro h
    show (String.mk (base64urlNoPad b)).length = 43
    have : (String.mk (base64urlNoPad b)).length = (base64urlNoPad b).length := rfl
    rw [this, base64urlNoPad_length, h]

/-- Witness for C2 at a concrete 32-byte draw (the all-zero draw): the
verifier has 43 characters, and its value and the challenge match the
RFC 7636 computation. -/
theorem c2_pkce_witness :
    (pkceChallenge (List.replicate 32 0)).2.length = 43 ∧
    pkceChallenge (List.replicate 32 0) =
      ("DwBzhbb51LfusnSGBa_hqYSgo7-j8BTQnip4TOnlzRo",
       "AAAAAAAAAAAAAAAAAAAAAAAAAAAAAAAAAAAAAAAAAAA") :=
  ⟨(c2_pkce (List.replicate 32 0)).2.2.2 (by decide), by decide⟩

/-- C3: the flow executes authorize, credential submission, callback and
token exchange strictly in this order, aborting at the first failure: the
issued steps are always an initial segment of the four, with no step
repeated (no retry); a non-200 status or a missing anti-forgery token in
step 1 leaves the trace at `[authorize]`, so step 2 is never issued; a
non-302 status in step 2 (resp. step 3) stops the trace before step 3
(resp. step 4); and in step 4 a non-200 status or an undecodable JSON
body fails the whole flow. -/
theorem c3_flow_order (w : FlowWorld) (hjar : w.jarOk = true) :
    ((loginFlow w).1 ∈ [([] : List Step), [.authorize], [.authorize, .submitCreds],
      [.authorize, .submitCreds, .callback],
      [.authorize, .submitCreds, .callback, .tokenExchange]]) ∧
    (w.authorizeT = none → w.authorizeStatus ≠ 200 →
      (loginFlow w).1 = [.authorize] ∧
      (loginFlow w).2 = .error (.unexpectedStatus w.authorizeStatus)) ∧
    (∀ doc, w.authorizeT = none → w.authorizeStatus = 200 → w.authorizeParse = some doc →
      verificationToken doc = "" →
      (loginFlow w).1 = [.authorize] ∧ (loginFlow w).2 = .error .tokenNotFound) ∧
    (∀ p, stepAuthorize w = .ok p → w.loginT = none → w.loginStatus ≠ 302 →
      (loginFlow w).1 = [.authorize, .submitCreds] ∧
      (loginFlow w).2 = .error (.unexpectedStatus w.loginStatus)) ∧
    (∀ p u, stepAuthorize w = .ok p → stepLogin w = .ok u → w.callbackT = none →
      w.callbackStatus ≠ 302 →
      (loginFlow w).1 = [.authorize, .submitCreds, .callback] ∧
      (loginFlow w).2 = .error (.unexpectedStatus w.callbackStatus)) ∧
    (∀ p u v, stepAuthorize w = .ok p → stepLogin w = .ok u → stepCallback w = .ok v →
      w.tokenT = none → w.tokenStatus ≠ 200 →
      (loginFlow w).1 = [.authorize, .submitCreds, .callback, .tokenExchange] ∧
      (loginFlow w).2 = .error (.unexpectedStatus w.tokenStatus)) ∧
    (∀ p u v, stepAuthorize w = .ok p → stepLogin w = .ok u → stepCallback w = .ok v →
      w.tokenT = none → w.tokenStatus = 200 → w.tokenBody = none →
      (loginFlow w).1 = [.authorize, .submitCreds, .callback, .tokenExchange] ∧
      (loginFlow w).2 = .error .jsonDecode) := by
  refine ⟨?_, ?_, ?_, ?_, ?_, ?_, ?_⟩
  · rcases hA : stepAuthorize w with eA | pA
    · simp [loginFlow, hjar, hA]
    · rcases hL : stepLogin w with eL | uL
      · simp [loginFlow, hjar, hA, hL]
      · rcases hC : stepCallback w with eC | uC
        · simp [loginFlow, hjar, hA, hL, hC]
        · rcases hT : stepToken w with eT | tT <;>
            simp [loginFlow, hjar, hA, hL, hC, hT]
  · intro hT' hS
    have hA : stepAuthorize w = .error (.unexpectedStatus w.authorizeStatus) := by
      simp [stepAuthorize, hT', hS]
    simp [loginFlow, hjar, hA]
  · intro doc hT' hS hP hv
    have hA : stepAuthorize w = .error .tokenNotFound := by
      simp [stepAuthorize, hT', hS, hP, hv]
    simp [loginFlow, hjar, hA]
  · intro p hA hT' hS
    have hL : stepLogin w = .error (.unexpectedStatus w.loginStatus) := by
      simp [stepLogin, hT', hS]
    simp [loginFlow, hjar, hA, hL]
  · intro p u hA hL hT' hS
    have hC : stepCallback w = .error (.unexpectedStatus w.callbackStatus) := by
      simp [stepCallback, hT', hS]
    simp [loginFlow, hjar, hA, hL, hC]
  · intro p u v hA hL hC hT' hS
    have hT : stepToken w = .error (.unexpectedStatus w.tokenStatus) := by
      simp [stepToken, hT', hS]
    simp [loginFlow, hjar, hA, hL, hC, hT]
  · intro p u v hA hL hC hT' hS hB
    have hT : stepToken w = .error .jsonDecode := by
      simp [stepToken, hT', hS, hB]
    simp [loginFlow, hjar, hA, hL, hC, hT]

/-- Witness for C3 at a world whose credential submission answers 403:
the flow stops after exactly steps 1 and 2 with the unexpected-status
error. -/
theorem c3_flow_order_witness :
    (loginFlow { successWorld with loginStatus := 403 }).1 =
      [.authorize, .submitCreds] ∧
    (loginFlow { successWorld with loginStatus := 403 }).2 =
      .error (.unexpectedStatus 403) :=
  (c3_flow_order { successWorld with loginStatus := 403 } rfl).2.2.2.1
    ("tokval", successWorld.authorizeFinalURL) (by rfl) rfl (by decide)

theorem loginFlow_ok_inv (w : FlowWorld) (tr : List Step) (tok : String)
    (h : loginFlow w = (tr, .ok tok)) :
    tr = [.authorize, .submitCreds, .callback, .tokenExchange] ∧
    stepToken w = .ok tok := by
  cases hjar : w.jarOk with
  | false => simp [loginFlow, hjar] at h
  | true =>
    rcases hA : stepAuthorize w with eA | pA
    · simp [loginFlow, hjar, hA] at h
    · rcases hL : stepLogin w with eL | uL
      · simp [loginFlow, hjar, hA, hL] at h
      · rcases hC : stepCallback w with eC | uC
        · simp [loginFlow, hjar, hA, hL, hC] at h
        · rcases hT : stepToken w with eT | tT
          · simp [loginFlow, hjar, hA, hL, hC, hT] at h
          · simp [loginFlow, hjar, hA, hL, hC, hT] at h
            exact ⟨h.1.symm, congrArg Except.ok h.2⟩

/-- C6 as stated is refuted: after a fully successful login on a session
holding a cached account list, the account list is NOT cleared — `Login`
assigns only the token and leaves `s.accounts` exactly as it was
(non-empty here). -/
theorem c6_counterexample :
    (LoginRun sampleSession successWorld).2.2 = .ok () ∧
    (LoginRun sampleSession successWorld).1.accounts =
      [{ id := "a1", name := "Home" }] ∧
    ¬ (LoginRun sampleSession successWorld).1.accounts = [] :=
  ⟨rfl, rfl, by decide⟩

/-- C6 amended: a successful `login()` stores the newly obtained bearer
token in the Session and leaves every other field — the cached account
list included — unchanged; the account cache is not cleared. -/
theorem c6_login_frame (s : Session) (w : FlowWorld) (tok : String) (tr : List Step)
    (h : loginFlow w = (tr, .ok tok)) :
    (LoginRun s w).1.token = tok ∧
    (LoginRun s w).1.accounts = s.accounts ∧
    (LoginRun s w).1.username = s.username ∧
    (LoginRun s w).1.password = s.password ∧
    (LoginRun s w).2.2 = .ok () := by
  simp [LoginRun, h]

/-- Witness for C6 (amended) at the all-success world: the token becomes
`tok123` and the cached account list survives. -/
theorem c6_login_frame_witness :
    (LoginRun sampleSession successWorld).1.token = "tok123" ∧
    (LoginRun sampleSession successWorld).1.accounts = sampleSession.accounts ∧
    (LoginRun sampleSession successWorld).1.username = sampleSession.username ∧
    (LoginRun sampleSession successWorld).1.password = sampleSession.password ∧
    (LoginRun sampleSession successWorld).2.2 = .ok () :=
  c6_login_frame sampleSession successWorld "tok123"
    [.authorize, .submitCreds, .callback, .tokenExchange] rfl

/-- C7: `login()` assigns the Session's token only when all four steps
completed successfully (the issued trace is then the full four-step one);
on any failure the error is returned and the Session — its previously
held token included — is returned exactly as it was. -/
theorem c7_token_integrity (s : Session) (w : FlowWorld) :
    (∀ e tr, loginFlow w = (tr, .error e) →
      LoginRun s w = (s, tr, .error e)) ∧
    (∀ tok tr, loginFlow w = (tr, .ok tok) →
      tr = [.authorize, .submitCreds, .callback, .tokenExchange] ∧
      LoginRun s w = ({ s with token := tok }, tr, .ok ())) := by
  constructor
  · intro e tr h
    simp [LoginRun, h]
  · intro tok tr h
    refine ⟨(loginFlow_ok_inv w tr tok h).1, ?_⟩
    simp [LoginRun, h]

/-- Witness for C7 at a world whose token exchange answers 500: the
session comes back untouched, old token and all. -/
theorem c7_token_integrity_witness :
    LoginRun sampleSession { successWorld with tokenStatus := 500 } =
      (sampleSession, [.authorize, .submitCreds, .callback, .tokenExchange],
        .error (.unexpectedStatus 500)) :=
  (c7_token_integrity sampleSession { successWorld with tokenStatus := 500 }).1
    (.unexpectedStatus 500) [.authorize, .submitCreds, .callback, .tokenExchange] rfl

/-- C10: when the token-exchange response is a 200 whose JSON decodes but
carries no (or an empty) `access_token` — Go's zero value makes the
decoded field `""` — the login succeeds, the Session's token becomes the
empty string, and every subsequent request carries no Authorization
header at all, since the Bearer header is attached only for a non-empty
stored token. -/
theorem c10_empty_access_token (s : Session) (w : FlowWorld)
    (p : String × URL) (u v : URL) (hjar : w.jarOk = true)
    (hA : stepAuthorize w = .ok p) (hL : stepLogin w = .ok u)
    (hC : stepCallback w = .ok v)
    (hT : w.tokenT = none) (hS : w.tokenStatus = 200) (hB : w.tokenBody = some "") :
    (LoginRun s w).2.2 = .ok () ∧
    (LoginRun s w).1.token = "" ∧
    (∀ hasBody val,
      ("Authorization", val) ∉ requestHeaders hasBody (LoginRun s w).1.token) := by
  have hTok : stepToken w = .ok "" := by simp [stepToken, hT, hS, hB]
  have hflow : loginFlow w =
      ([.authorize, .submitCreds, .callback, .tokenExchange], .ok "") := by
    simp [loginFlow, hjar, hA, hL, hC, hTok]
  refine ⟨?_, ?_, ?_⟩
  · simp [LoginRun, hflow]
  · simp [LoginRun, hflow]
  · intro hasBody val
    cases hasBody <;> simp [LoginRun, hflow, requestHeaders]

/-- Witness for C10 at the empty-access-token world. -/
theorem c10_empty_access_token_witness :
    (LoginRun sampleSession emptyTokenWorld).2.2 = .ok () ∧
    (LoginRun sampleSession emptyTokenWorld).1.token = "" ∧
    (∀ hasBody val,
      ("Authorization", val) ∉
        requestHeaders hasBody (LoginRun sampleSession emptyTokenWorld).1.token) :=
  c10_empty_access_token sampleSession emptyTokenWorld
    ("tokval", "https://partner-identity.myq-cloud.com/Account/Login")
    "https://cb1" "https://cb2" rfl (by rfl) rfl rfl rfl rfl rfl

theorem deviceStateLoop_success (lookup : Account → Except Err String) (serial : String) :
    ∀ (accts : List Account) (k : Nat) (a : Account) (st : String),
      (∀ x ∈ accts.take k, ∃ m d, lookup x = .error (.errResp 404 m d)) →
      accts[k]? = some a → lookup a = .ok st →
      deviceStateLoop lookup serial accts = (k + 1, .ok st)
  | [], k, a, st, h404, hk, hst => by simp at hk
  | a' :: rest, 0, a, st, h404, hk, hst => by
    simp only [List.getElem?_cons_zero, Option.some.injEq] at hk
    subst hk
    simp [deviceStateLoop, hst]
  | a' :: rest, k + 1, a, st, h404, hk, hst => by
    obtain ⟨m, d, hm⟩ := h404 a' (by simp [List.take_succ_cons])
    have ih := deviceStateLoop_success lookup serial rest k a st
      (fun x hx => h404 x (by simp only [List.take_succ_cons]; exact List.mem_cons_of_mem a' hx))
      (by simpa using hk) hst
    simp [deviceStateLoop, hm, isStatus, ih]

theorem deviceStateLoop_abort (lookup : Account → Except Err String) (serial : String) :
    ∀ (accts : List Account) (k : Nat) (a : Account) (e : Err),
      (∀ x ∈ accts.take k, ∃ m d, lookup x = .error (.errResp 404 m d)) →
      accts[k]? = some a → lookup a = .error e → isStatus e 404 = false →
      deviceStateLoop lookup serial accts = (k + 1, .error e)
  | [], k, a, e, h404, hk, he, hne => by simp at hk
  | a' :: rest, 0, a, e, h404, hk, he, hne => by
    simp only [List.getElem?_cons_zero, Option.some.injEq] at hk
    subst hk
    simp [deviceStateLoop, he, hne]
  | a' :: rest, k + 1, a, e, h404, hk, he, hne => by
    obtain ⟨m, d, hm⟩ := h404 a' (by simp [List.take_succ_cons])
    have ih := deviceStateLoop_abort lookup serial rest k a e
      (fun x hx => h404 x (by simp only [List.take_succ_cons]; exact List.mem_cons_of_mem a' hx))
      (by simpa using hk) he hne
    simp [deviceStateLoop, hm, isStatus, ih]

theorem deviceStateLoop_all404 (lookup : Account → Except Err String) (serial : String) :
    ∀ accts : List Account,
      (∀ x ∈ accts, ∃ m d, lookup x = .error (.errResp 404 m d)) →
      deviceStateLoop lookup serial accts =
        (accts.length, .error (.deviceNotFound serial))
  | [], _ => rfl
  | a' :: rest, h404 => by
    obtain ⟨m, d, hm⟩ := h404 a' (List.mem_cons_self a' rest)
    have ih := deviceStateLoop_all404 lookup serial rest
      (fun x hx => h404 x (List.mem_cons_of_mem a' hx))
    simp [deviceStateLoop, hm, isStatus, ih]

/-- C5: `DeviceState` populates the account cache only when it is empty
(no accounts request is issued when it is already filled), then queries
the cached accounts in list order: with the accounts before position `k`
(0-based) all answering with a 404 `errorResponse`, a success at position
`k` returns that door state after exactly `k + 1` lookups — so no account
after position `k` is ever queried — a non-404 error at position `k`
aborts with that error after exactly `k + 1` lookups, and only when every
account has answered 404 does it return the device-not-found error, after
querying all of them. -/
theorem c5_device_lookup (s : Session) (fetch : Except Err (List Account))
    (lookup : Account → Except Err String) (serial : String) :
    (s.accounts ≠ [] →
      DeviceStateRun s fetch lookup serial =
        (s, false, deviceStateLoop lookup serial s.accounts)) ∧
    (s.accounts = [] → (DeviceStateRun s fetch lookup serial).2.1 = true) ∧
    (∀ s' fetched, fillAccounts s fetch = (s', fetched, none) →
      (∀ k a st,
        (∀ x ∈ s'.accounts.take k, ∃ m d, lookup x = .error (.errResp 404 m d)) →
        s'.accounts[k]? = some a → lookup a = .ok st →
        (DeviceStateRun s fetch lookup serial).2.2 = (k + 1, .ok st)) ∧
      (∀ k a e,
        (∀ x ∈ s'.accounts.take k, ∃ m d, lookup x = .error (.errResp 404 m d)) →
        s'.accounts[k]? = some a → lookup a = .error e → isStatus e 404 = false →
        (DeviceStateRun s fetch lookup serial).2.2 = (k + 1, .error e)) ∧
      ((∀ x ∈ s'.accounts, ∃ m d, lookup x = .error (.errResp 404 m d)) →
        (DeviceStateRun s fetch lookup serial).2.2 =
          (s'.accounts.length, .error (.deviceNotFound serial)))) := by
  refine ⟨?_, ?_, ?_⟩
  · intro hne
    have hlen : 0 < s.accounts.length := List.length_pos.mpr hne
    simp [DeviceStateRun, fillAccounts, hlen]
  · intro hnil
    simp only [DeviceStateRun, fillAccounts, hnil]
    rcases fetch with e | accts <;> simp
  · intro s' fetched hfill
    have hrun : DeviceStateRun s fetch lookup serial =
        (s', fetched, deviceStateLoop lookup serial s'.accounts) := by
      simp [DeviceStateRun, hfill]
    refine ⟨?_, ?_, ?_⟩
    · intro k a st h404 hk hst
      rw [hrun]
      exact deviceStateLoop_success lookup serial s'.accounts k a st h404 hk hst
    · intro k a e h404 hk he hne
      rw [hrun]
      exact deviceStateLoop_abort lookup serial s'.accounts k a e h404 hk he hne
    · intro h404
      rw [hrun]
      exact deviceStateLoop_all404 lookup serial s'.accounts h404

/-- Witness for C5: three cached accounts, the first two answering 404
and the third holding the device: exactly three lookups and the third
account's door state. -/
theorem c5_device_lookup_witness :
    (DeviceStateRun threeAcctSession (.ok []) sampleLookup "SN").2.2 =
      (3, .ok "open") :=
  ((c5_device_lookup threeAcctSession (.ok []) sampleLookup "SN").2.2
      threeAcctSession false rfl).1 2 ⟨"a3", "C"⟩ "open"
    (by
      intro x hx
      fin_cases hx <;> exact ⟨"Not Found", "", rfl⟩)
    rfl rfl

theorem stateString_mem (st : Int) : stateString st ∈ doorStates := by
  unfold stateString doorStates
  split_ifs <;> simp [StateUnknown, StateOpen, StateClosed, StateStopped,
    StateOpening, StateClosing]

theorem legacyFold_state (attrs : List LegacyAttr) :
    ∀ init : LegacyOutDevice,
      (attrs.foldl legacyAttrStep init).state = init.state ∨
      ∃ v, (attrs.foldl legacyAttrStep init).state = stateString (atoi v) := by
  induction attrs with
  | nil => intro init; exact Or.inl rfl
  | cons attr rest ih =>
    intro init
    rcases ih (legacyAttrStep init attr) with h | h
    · rw [List.foldl_cons, h]
      unfold legacyAttrStep
      split_ifs <;> first
        | exact Or.inl rfl
        | exact Or.inr ⟨attr.value, rfl⟩
    · rw [List.foldl_cons]
      exact Or.inr h

theorem legacyFold_state_no_doorstate (attrs : List LegacyAttr) :
    ∀ init : LegacyOutDevice,
      (∀ attr ∈ attrs, attr.attributeDisplayName ≠ "doorstate") →
      (attrs.foldl legacyAttrStep init).state = init.state := by
  induction attrs with
  | nil => intro init _; rfl
  | cons attr rest ih =>
    intro init hno
    rw [List.foldl_cons, ih (legacyAttrStep init attr)
      (fun a ha => hno a (List.mem_cons_of_mem attr ha))]
    unfold legacyAttrStep
    have hd := hno attr (List.mem_cons_self attr rest)
    split_ifs <;> rfl

theorem devicesLoop_doorState (items : Account → Except Err (List Item)) :
    ∀ (accts : List Account) (devs : List Device),
      devicesLoop items accts = .ok devs →
      ∀ dev ∈ devs, ∃ a its it, items a = .ok its ∧ it ∈ its ∧
        dev = { account := a, serialNumber := it.serialNumber, type := it.deviceType,
                name := it.name, doorState := itemDoorState it }
  | [], devs, hok, dev, hdev => by
    simp only [devicesLoop, Except.ok.injEq] at hok
    rw [← hok] at hdev
    cases hdev
  | a :: rest, devs, hok, dev, hdev => by
    rcases hits : items a with e | its
    · rw [devicesLoop, hits] at hok
      cases hok
    · rcases hrest : devicesLoop items rest with e | ds
      · rw [devicesLoop, hits, hrest] at hok
        cases hok
      · rw [devicesLoop, hits, hrest] at hok
        simp only [Except.ok.injEq] at hok
        rw [← hok] at hdev
        rcases List.mem_append.mp hdev with h | h
        · obtain ⟨it, hit, hmap⟩ := List.mem_map.mp h
          exact ⟨a, its, it, hits, hit, hmap.symm⟩
        · obtain ⟨a', its', it', h1, h2, h3⟩ :=
            devicesLoop_doorState items rest ds hrest dev h
          exact ⟨a', its', it', h1, h2, h3⟩

/-- C9 as stated is refuted on the current-generation API: a listing whose
provider response omits `state.door_state` yields a device whose reported
door state is the empty string, not the claimed default `"unknown"`. -/
theorem c9_counterexample :
    (DevicesRun sampleSession (.ok [])
        (fun _ => .ok [{ serialNumber := "SN1", deviceType := "garagedooropener",
                         name := "Door", doorState := none }])).2 =
      .ok [{ account := { id := "a1", name := "Home" }, serialNumber := "SN1",
             type := "garagedooropener", name := "Door", doorState := "" }] ∧
    ("" : String) ≠ StateUnknown :=
  ⟨rfl, by decide⟩

/-- C9 amended: the current-generation listing copies the provider's
`state.door_state` verbatim into every returned device — the empty string,
not `"unknown"`, when the provider omits it — while the legacy generation
reports only values of the closed door-state enumeration, defaulting to
`"unknown"` exactly when no `doorstate` attribute is sent (and mapping a
sent numeric code through the fixed `stateString` table); neither
generation invents door states outside these rules. -/
theorem c9_door_state (s : Session) (fetch : Except Err (List Account))
    (items : Account → Except Err (List Item)) :
    (∀ devs, (DevicesRun s fetch items).2 = .ok devs →
      ∀ dev ∈ devs, ∃ a its it, items a = .ok its ∧ it ∈ its ∧
        dev.doorState = itemDoorState it ∧
        (it.doorState = none → dev.doorState = "") ∧
        (∀ v, it.doorState = some v → dev.doorState = v)) ∧
    (∀ ld : LegacyDevice, (legacyConvert ld).state ∈ doorStates ∧
      ((∀ attr ∈ ld.attributes, attr.attributeDisplayName ≠ "doorstate") →
        (legacyConvert ld).state = StateUnknown)) ∧
    (∀ v : String, legacyDeviceState v ∈ doorStates) := by
  refine ⟨?_, ?_, ?_⟩
  · intro devs hdevs dev hdev
    rcases hfill : fillAccounts s fetch with ⟨s', fetched, oe⟩
    rcases oe with _ | e
    · rw [DevicesRun, hfill] at hdevs
      obtain ⟨a, its, it, h1, h2, h3⟩ :=
        devicesLoop_doorState items s'.accounts devs hdevs dev hdev
      refine ⟨a, its, it, h1, h2, by rw [h3], ?_, ?_⟩
      · intro hnone
        rw [h3]
        simp [itemDoorState, hnone]
      · intro v hv
        rw [h3]
        simp [itemDoorState, hv]
    · rw [DevicesRun, hfill] at hdevs
      cases hdevs
  · intro ld
    constructor
    · rcases legacyFold_state ld.attributes
        { deviceID := toString ld.myqDeviceId, serialNumber := ld.serialNumber,
          type := ld.myqDeviceTypeName, name := "", desc := "",
          state := StateUnknown } with h | ⟨v, h⟩
      · rw [legacyConvert, h]
        simp [doorStates]
      · rw [legacyConvert, h]
        exact stateString_mem (atoi v)
    · intro hno
      rw [legacyConvert, legacyFold_state_no_doorstate ld.attributes _ hno]
  · intro v
    exact stateString_mem (atoi v)

/-- Witness for C9 (amended): a listing with one present and one absent
door state reports `"closed"` and `""` respectively, and a legacy device
with no `doorstate` attribute reports `"unknown"`. -/
theorem c9_door_state_witness :
    ∃ a its it,
      (fun _ : Account =>
          (.ok [{ serialNumber := "SN1", deviceType := "gate", name := "Drive",
                  doorState := some "closed" }] : Except Err (List Item))) a = .ok its ∧
      it ∈ its ∧
      ({ account := { id := "a1", name := "Home" }, serialNumber := "SN1",
         type := "gate", name := "Drive", doorState := "closed" } : Device).doorState =
        itemDoorState it ∧
      (it.doorState = none →
        ({ account := { id := "a1", name := "Home" }, serialNumber := "SN1",
           type := "gate", name := "Drive", doorState := "closed" } : Device).doorState = "") ∧
      (∀ v, it.doorState = some v →
        ({ account := { id := "a1", name := "Home" }, serialNumber := "SN1",
           type := "gate", name := "Drive", doorState := "closed" } : Device).doorState = v) :=
  (c9_door_state sampleSession (.ok [])
      (fun _ => .ok [{ serialNumber := "SN1", deviceType := "gate", name := "Drive",
                       doorState := some "closed" }])).1
    [{ account := { id := "a1", name := "Home" }, serialNumber := "SN1",
       type := "gate", name := "Drive", doorState := "closed" }] rfl
    { account := { id := "a1", name := "Home" }, serialNumber := "SN1",
      type := "gate", name := "Drive", doorState := "closed" }
    (List.mem_singleton.mpr rfl)

end Myq
